import Mathlib

/-!
Shallow embedding of the tree-planting rule evaluation, spend-limit guard and
entry-point handlers of the afforestation Shopify app.

Numbers from the JavaScript source are modelled as rationals, with an explicit
NaN value (`JSNum.nan`) where the source can produce NaN (parseFloat of a
non-numeric string).  JS comparison and arithmetic semantics on NaN are
reproduced: NaN propagates through arithmetic and every ordered comparison
involving NaN is false.

Source files embedded here:
- app/routes/webhooks.customers.data_request.tsx (the order webhook handler
  with trigger-rule evaluation: `treesFromRule`, `fetchProductTags`, `action`)
- app/routes/webhooks.orders.paid.tsx (the legacy order-paid handler)
- the loyalty redeem action (POST /api/loyalty/redeem)
- the loyalty rates loader (GET /api/loyalty/rates)
- the Flow plant-trees action handler
-/

namespace Afforestation

/-- JavaScript number: a finite rational or NaN.  Division by zero is folded
into `nan` as well (the source yields Infinity there; no claim in this
development evaluates a division whose divisor is zero, and every theorem
that touches a division carries a nonzero divisor at its use sites). -/
inductive JSNum where
  | num (q : ℚ)
  | nan
deriving DecidableEq, Repr

/-- JS addition: NaN propagates. -/
def jsAdd : JSNum → JSNum → JSNum
  | .num a, .num b => .num (a + b)
  | _, _ => .nan

/-- JS multiplication: NaN propagates. -/
def jsMul : JSNum → JSNum → JSNum
  | .num a, .num b => .num (a * b)
  | _, _ => .nan

/-- JS division: NaN propagates; a zero divisor is folded into nan. -/
def jsDiv : JSNum → JSNum → JSNum
  | .num a, .num b => if b = 0 then .nan else .num (a / b)
  | _, _ => .nan

/-- Math.floor: NaN propagates. -/
def jsFloor : JSNum → JSNum
  | .num q => .num ⌊q⌋
  | .nan => .nan

/-- JS strict less-than: any comparison with NaN is false. -/
def jsLt : JSNum → JSNum → Bool
  | .num a, .num b => decide (a < b)
  | _, _ => false

/-- JS String.prototype.toLowerCase, character by character (the tags and
configured tag strings involved are plain ASCII). -/
def strLower (s : String) : String :=
  ⟨s.data.map Char.toLower⟩

/-- JS String.prototype.trim: leading and trailing whitespace removed. -/
def strTrim (s : String) : String :=
  ⟨((s.data.dropWhile Char.isWhitespace).reverse.dropWhile
    Char.isWhitespace).reverse⟩

/-- Truthiness of a nullable string (undefined, null and the empty string are
falsy). -/
def jsStrTruthy : Option String → Bool
  | none => false
  | some s => decide (s ≠ "")

/-- JS `x || d` on a nullable numeric field: null, undefined and 0 fall back
to the default. -/
def jsOr (v : Option ℚ) (d : ℚ) : ℚ :=
  match v with
  | none => d
  | some q => if q = 0 then d else q

/-- Truncation toward zero, the integer-extraction behaviour of parseInt on a
decimal numeral. -/
def jsTrunc (q : ℚ) : ℤ :=
  if q < 0 then -⌊-q⌋ else ⌊q⌋

/-- A JSON field value as far as the handlers inspect it: absent (also
covering falsy non-numbers such as null, false or the empty string), a
number, or some other truthy non-number value. -/
inductive JField where
  | absent
  | numVal (q : ℚ)
  | otherTruthy
deriving DecidableEq, Repr

/-- JS truthiness of a `JField`. -/
def jfTruthy : JField → Bool
  | .absent => false
  | .numVal q => decide (q ≠ 0)
  | .otherTruthy => true

/-- parseInt applied to a JSON field: numbers are truncated toward zero (the
source first stringifies them, and parseInt reads the integer prefix of the
decimal numeral); everything else is NaN, modelled as none. -/
def jsParseIntField : JField → Option ℤ
  | .absent => none
  | .otherTruthy => none
  | .numVal q => some (jsTrunc q)

/-- Product identifier of a line item: the payload may carry a numeric id or
a gid string. -/
inductive ProductId where
  | numId (n : ℤ)
  | strId (s : String)
deriving DecidableEq, Repr

/-- Conversion to a gid string, as in the source:
`typeof pid === "number" ? gid://shopify/Product/id : pid`. -/
def gidOf : ProductId → String
  | .numId n => "gid://shopify/Product/" ++ toString n
  | .strId s => s

/-- A line item of the order payload.  `quantity = none` models an absent or
non-number quantity field (the source falls back to 1 in that case). -/
structure LineItem where
  product_id : Option ProductId
  quantity : Option ℚ
deriving DecidableEq, Repr

/-- The product-id-to-tags mapping produced by `fetchProductTags`. -/
abbrev TagMap : Type := List (String × List String)

/-- Map lookup followed by the `|| []` fallback of the source. -/
def tagsFor (m : TagMap) (gid : String) : List String :=
  (m.lookup gid).getD []

/-- The `total_price` field of an order payload: absent/empty (falsy, so the
source parses the fallback string "0"), a non-numeric string (parseFloat
yields NaN), or a numeric string with the given value. -/
inductive TotalPrice where
  | missing
  | nonNumeric
  | numeric (q : ℚ)
deriving DecidableEq, Repr

/-- Embedding of `parseFloat(payload.total_price || "0")`. -/
def parseTotalPrice : TotalPrice → JSNum
  | .missing => .num 0
  | .nonNumeric => .nan
  | .numeric q => .num q

/-- The part of the order payload the handlers read. -/
structure Order where
  total_price : TotalPrice
  line_items : List LineItem
deriving DecidableEq, Repr

/-- One entry of the trigger-rules array. -/
structure TriggerRule where
  type : String
  enabled : Bool
  value : ℚ
  tag : Option String
  minOrderValue : Option ℚ
deriving DecidableEq, Repr

/-- Per-shop settings row (the fields the embedded handlers read).  Numeric
columns are double precision in the schema; nullable columns are options. -/
structure ShopifySettings where
  isEnabled : Bool
  isPaused : Bool
  triggerType : String
  triggerValue : ℚ
  minOrderValue : Option ℚ
  triggerRules : Option (List TriggerRule)
  costPerTree : Option ℚ
  monthlyLimit : Option ℚ
  monthlySpent : ℚ
  loyaltyEnabled : Bool
  loyaltyApiKey : Option String
  pointsPerTree : Option ℚ
deriving DecidableEq, Repr

/-- Embedding of `treesFromRule` from the order webhook handler.  The rule
dispatch, the `Math.max(1, Math.floor(value))` per-unit factors, the
case-insensitive tag match and the reduce-style quantity sums follow the
source line by line. -/
def treesFromRule (rule : TriggerRule) (totalAmount : JSNum)
    (lineItems : List LineItem) (productIdToTags : TagMap)
    (costPerTree : ℚ) : JSNum :=
  if rule.enabled = false then .num 0
  else match rule.type with
  | "fixed" => .num ⌊rule.value⌋
  | "per_product" =>
      let treesPerUnit : ℤ := max 1 ⌊rule.value⌋
      .num (lineItems.foldl
        (fun sum item => sum + item.quantity.getD 1 * (treesPerUnit : ℚ)) 0)
  | "per_tag" =>
      match rule.tag with
      | none => .num 0
      | some t =>
          if strTrim t = "" then .num 0
          else
            let tagLower := strLower (strTrim t)
            let treesPerMatch : ℤ := max 1 ⌊rule.value⌋
            let matchedQty : ℚ := lineItems.foldl
              (fun acc item =>
                match item.product_id with
                | none => acc
                | some pid =>
                    if (tagsFor productIdToTags (gidOf pid)).any
                        (fun tg => strLower tg = tagLower) then
                      acc + item.quantity.getD 1
                    else acc) 0
            .num (matchedQty * (treesPerMatch : ℚ))
  | "threshold" =>
      let minV := rule.minOrderValue.getD 0
      if 0 < minV ∧ jsLt totalAmount (.num minV) = true then .num 0
      else jsFloor (jsDiv totalAmount (.num rule.value))
  | "percentage" =>
      jsFloor (jsDiv (jsMul totalAmount (.num (rule.value / 100)))
        (.num costPerTree))
  | _ => .num 0

/-- The accumulation loop of the rules branch:
`for (const rule of enabledRules) treesToPlant += treesFromRule(...)`. -/
def computeTreesRules (enabledRules : List TriggerRule) (totalAmount : JSNum)
    (lineItems : List LineItem) (productIdToTags : TagMap)
    (costPerTree : ℚ) : JSNum :=
  enabledRules.foldl
    (fun acc r =>
      jsAdd acc (treesFromRule r totalAmount lineItems productIdToTags costPerTree))
    (.num 0)

/-- Outcome of one order webhook invocation.  `skipped` is an early return
before any tree computation (missing settings, disabled, paused, no enabled
rule, legacy minimum not met); `zeroTrees` is the fall-through when the
computed count is not strictly positive (including NaN); both write nothing.
`overBudget` is the spend-limit rejection: nothing is written and
monthlySpent is unchanged.  `recorded` means one impact_ledger row with the
given trees and co2, and monthlySpent incremented by the given cost. -/
inductive OrderOutcome where
  | skipped
  | zeroTrees
  | overBudget (trees : ℤ) (cost : ℚ)
  | recorded (trees : ℤ) (co2 : ℤ) (cost : ℚ)
deriving DecidableEq, Repr

/-- Embedding of the tail of the webhook action from `if (treesToPlant > 0)`
on: rounding, costing, the spend-limit guard, the ledger insert and the
monthlySpent increment.  The NaN branch lands in `zeroTrees` because
`NaN > 0` is false in JS. -/
def recordStage (settings : ShopifySettings) (treesToPlant : JSNum) :
    OrderOutcome :=
  match treesToPlant with
  | .nan => .zeroTrees
  | .num q =>
      if q ≤ 0 then .zeroTrees
      else
        let trees : ℤ := round q
        let costPerTree : ℚ := settings.costPerTree.getD (1 / 2)
        let treeCost : ℚ := (trees : ℚ) * costPerTree
        let overLimit : Bool :=
          match settings.monthlyLimit with
          | none => false
          | some lim =>
              decide (lim ≠ 0) && decide (settings.monthlySpent + treeCost > lim)
        if overLimit = true then .overBudget trees treeCost
        else .recorded trees (trees * 20) treeCost

/-- Tag map actually used by the rules branch: the fetch runs only when a
per_tag rule is enabled and the order has line items; otherwise the map
stays empty.  `fetchResult = none` models the catch branch of
`fetchProductTags` (the API call threw), which returns an empty map. -/
def effectiveTagMap (enabledRules : List TriggerRule)
    (lineItems : List LineItem) (fetchResult : Option TagMap) : TagMap :=
  if enabledRules.any (fun r => r.type = "per_tag") = true ∧ lineItems ≠ [] then
    fetchResult.getD []
  else []

/-- The legacy single trigger type/value computation of the webhook action
(the branch taken when no trigger-rules array is configured). -/
def legacyTrees (settings : ShopifySettings) (totalAmount : JSNum)
    (lineItems : List LineItem) (costPerTree : ℚ) : JSNum :=
  match settings.triggerType with
  | "fixed" => .num settings.triggerValue
  | "threshold" => jsFloor (jsDiv totalAmount (.num settings.triggerValue))
  | "percentage" =>
      jsFloor (jsDiv (jsMul totalAmount (.num (settings.triggerValue / 100)))
        (.num costPerTree))
  | "per_product" =>
      let treesPerItem : ℤ := max 1 ⌊settings.triggerValue⌋
      .num (lineItems.foldl
        (fun sum item => sum + item.quantity.getD 1 * (treesPerItem : ℚ)) 0)
  | _ => .num 0

/-- Embedding of the main order webhook action (the handler that accepts
ORDERS_PAID and ORDERS_CREATE and evaluates trigger rules), from the
settings lookup on.  `fetchResult` is the outcome the product-tag fetch
would have: `none` when the catalog API call throws. -/
def processOrder (settingsOpt : Option ShopifySettings) (order : Order)
    (fetchResult : Option TagMap) : OrderOutcome :=
  match settingsOpt with
  | none => .skipped
  | some settings =>
      if settings.isEnabled = false then .skipped
      else if settings.isPaused = true then .skipped
      else
        let totalAmount := parseTotalPrice order.total_price
        let lineItems := order.line_items
        let costPerTree : ℚ := settings.costPerTree.getD (1 / 2)
        match settings.triggerRules with
        | some rules =>
            if rules = [] then
              -- an empty array fails the length check and falls back
              processLegacy settings totalAmount lineItems costPerTree
            else
              let enabledRules := rules.filter (fun r => r.enabled)
              if enabledRules = [] then .skipped
              else
                recordStage settings
                  (computeTreesRules enabledRules totalAmount lineItems
                    (effectiveTagMap enabledRules lineItems fetchResult)
                    costPerTree)
        | none => processLegacy settings totalAmount lineItems costPerTree
where
  /-- Legacy branch: global minimum-order gate, then the single
  trigger type/value formulas. -/
  processLegacy (settings : ShopifySettings) (totalAmount : JSNum)
      (lineItems : List LineItem) (costPerTree : ℚ) : OrderOutcome :=
    let belowMin : Bool :=
      match settings.minOrderValue with
      | none => false
      | some m => decide (0 < m) && jsLt totalAmount (.num m)
    if belowMin = true then .skipped
    else recordStage settings (legacyTrees settings totalAmount lineItems costPerTree)

/-- Outcome of the legacy webhooks.orders.paid handler: it checks only
`isEnabled` (never `isPaused`), supports only the fixed and threshold
trigger types, never checks the monthly limit and never touches
monthlySpent.  `recorded` means one impact_ledger row. -/
inductive PaidOutcome where
  | skipped
  | zeroTrees
  | recorded (trees : ℤ) (co2 : ℤ)
deriving DecidableEq, Repr

/-- Embedding of the webhooks.orders.paid action from the settings lookup
on. -/
def processOrderPaid (settingsOpt : Option ShopifySettings) (order : Order) :
    PaidOutcome :=
  match settingsOpt with
  | none => .skipped
  | some settings =>
      if settings.isEnabled = false then .skipped
      else
        let treesToPlant : JSNum :=
          match settings.triggerType with
          | "fixed" => .num settings.triggerValue
          | "threshold" =>
              jsFloor (jsDiv (parseTotalPrice order.total_price)
                (.num settings.triggerValue))
          | _ => .num 0
        match treesToPlant with
        | .nan => .zeroTrees
        | .num q =>
            if q ≤ 0 then .zeroTrees
            else .recorded (round q) (round q * 20)

/-- Body of a POST /api/loyalty/redeem request (after JSON parsing).  String
fields are options whose none covers an absent field; `pointsSpent` keeps
the full JSON-value distinction because the handler inspects both its
truthiness and its type. -/
structure RedeemBody where
  customerId : Option String
  customerEmail : Option String
  pointsSpent : JField
  loyaltyApp : Option String
  externalId : Option String
deriving DecidableEq, Repr

/-- Error cases of the redeem action, one per early return of the source. -/
inductive RedeemErr where
  | missingHeaders
  | shopNotFound
  | loyaltyDisabled
  | invalidApiKey
  | invalidJson
  | missingFields
  | nonPositivePoints
  | belowMinimumPoints
  | limitReached
deriving DecidableEq, Repr

/-- HTTP status each redeem error is returned with. -/
def redeemStatus : RedeemErr → ℕ
  | .missingHeaders => 400
  | .shopNotFound => 404
  | .loyaltyDisabled => 403
  | .invalidApiKey => 401
  | .invalidJson => 400
  | .missingFields => 400
  | .nonPositivePoints => 400
  | .belowMinimumPoints => 400
  | .limitReached => 429

/-- Result of the redeem action.  `ok trees points cost` stands for the 200
response; it also creates one ShopifyLoyaltyRedemption row with these
trees and points, increments monthlySpent by the cost and best-effort
inserts one impact_ledger row with `trees * 24` kg of co2.  Every `err`
writes nothing. -/
inductive RedeemResult where
  | err (e : RedeemErr)
  | ok (treesPlanted : ℤ) (pointsSpent : ℚ) (treeCost : ℚ)
deriving DecidableEq, Repr

/-- Embedding of the POST /api/loyalty/redeem action, from the header checks
on (the method check is outside the model).  `bodyOpt = none` models a JSON
parse failure. -/
def loyaltyRedeem (settingsOpt : Option ShopifySettings)
    (shopHeader apiKeyHeader : Option String)
    (bodyOpt : Option RedeemBody) : RedeemResult :=
  if ¬(jsStrTruthy shopHeader = true ∧ jsStrTruthy apiKeyHeader = true) then
    .err .missingHeaders
  else match settingsOpt with
  | none => .err .shopNotFound
  | some settings =>
      if settings.loyaltyEnabled = false then .err .loyaltyDisabled
      else if settings.loyaltyApiKey ≠ apiKeyHeader then .err .invalidApiKey
      else match bodyOpt with
      | none => .err .invalidJson
      | some body =>
          if ¬(jsStrTruthy body.customerId = true ∧
               jfTruthy body.pointsSpent = true ∧
               jsStrTruthy body.loyaltyApp = true) then
            .err .missingFields
          else match body.pointsSpent with
          | .numVal ps =>
              if ps < 1 then .err .nonPositivePoints
              else
                let pointsPerTree := jsOr settings.pointsPerTree 200
                let treesPlanted : ℤ := ⌊ps / pointsPerTree⌋
                if treesPlanted < 1 then .err .belowMinimumPoints
                else
                  let treeCost : ℚ := (treesPlanted : ℚ) * jsOr settings.costPerTree (1 / 2)
                  let overLimit : Bool :=
                    match settings.monthlyLimit with
                    | none => false
                    | some lim =>
                        decide (lim ≠ 0) && decide (0 < lim) &&
                          decide (settings.monthlySpent + treeCost > lim)
                  if overLimit = true then .err .limitReached
                  else .ok treesPlanted ps treeCost
          | _ => .err .nonPositivePoints

/-- The treesRemainingThisMonth preview of the GET /api/loyalty/rates loader
(authenticated branch): remaining budget clamped at zero, then floored into
trees; both ternaries treat 0 as falsy and yield null. -/
def treesRemainingThisMonth (settings : ShopifySettings) : Option ℤ :=
  let monthlyRemaining : Option ℚ :=
    match settings.monthlyLimit with
    | none => none
    | some lim =>
        if lim ≠ 0 then some (max 0 (lim - settings.monthlySpent)) else none
  match monthlyRemaining with
  | none => none
  | some r =>
      if r ≠ 0 then some ⌊r / jsOr settings.costPerTree (1 / 2)⌋ else none

/-- Properties object of a Flow plant-trees call. -/
structure FlowProps where
  tree_count : JField
  reason : Option String
deriving DecidableEq, Repr

/-- Body of a Flow plant-trees call (after JSON parsing). -/
structure FlowBody where
  shopify_domain : Option String
  properties : Option FlowProps
deriving DecidableEq, Repr

/-- Error cases of the Flow plant-trees action, one per early return. -/
inductive FlowErr where
  | invalidJson
  | missingFields
  | treeCountTooSmall
  | shopNotRegistered
  | impactPaused
  | limitReached
deriving DecidableEq, Repr

/-- HTTP status each Flow error is returned with. -/
def flowStatus : FlowErr → ℕ
  | .invalidJson => 400
  | .missingFields => 400
  | .treeCountTooSmall => 400
  | .shopNotRegistered => 404
  | .impactPaused => 429
  | .limitReached => 429

/-- Result of the Flow plant-trees action.  `ok trees cost` stands for the
200 response; it also creates one ShopifyFlowLog row with these trees and
`trees * 24` kg of co2, increments monthlySpent by the cost and best-effort
inserts one impact_ledger row.  Every `err` writes nothing. -/
inductive FlowResult where
  | err (e : FlowErr)
  | ok (treesPlanted : ℤ) (treeCost : ℚ)
deriving DecidableEq, Repr

/-- The coercion `parseInt(properties.tree_count) || 1`: NaN and 0 both fall
back to 1. -/
def flowTreeCount (tc : JField) : ℤ :=
  match jsParseIntField tc with
  | none => 1
  | some n => if n = 0 then 1 else n

/-- Embedding of the Flow plant-trees action, from the JSON parse on
(`bodyOpt = none` models a parse failure).  The settings lookup happens
after the tree-count validation, as in the source. -/
def flowPlantTrees (bodyOpt : Option FlowBody)
    (settingsOpt : Option ShopifySettings) : FlowResult :=
  match bodyOpt with
  | none => .err .invalidJson
  | some body =>
      match body.properties with
      | none => .err .missingFields
      | some props =>
          if jsStrTruthy body.shopify_domain = false then .err .missingFields
          else
            let treeCount : ℤ := flowTreeCount props.tree_count
            if treeCount < 1 then .err .treeCountTooSmall
            else match settingsOpt with
            | none => .err .shopNotRegistered
            | some settings =>
                if settings.isPaused = true then .err .impactPaused
                else
                  let treeCost : ℚ := (treeCount : ℚ) * jsOr settings.costPerTree (1 / 2)
                  let overLimit : Bool :=
                    match settings.monthlyLimit with
                    | none => false
                    | some lim =>
                        decide (lim ≠ 0) &&
                          decide (settings.monthlySpent + treeCost > lim)
                  if overLimit = true then .err .limitReached
                  else .ok treeCount treeCost

/-! Concrete fixtures used by counterexamples and witnesses. -/

/-- A baseline settings row: enabled, not paused, legacy fixed trigger of 1,
cost 0.50 per tree, no budget, loyalty off. -/
def baseSettings : ShopifySettings :=
  ⟨true, false, "fixed", 1, none, none, some (1 / 2), none, 0, false, none, none⟩

/-- Legacy fixed trigger with the non-integer value 2.6. -/
def c1Settings : ShopifySettings :=
  { baseSettings with triggerValue := 13 / 5 }

/-- Loyalty-enabled settings with a 10-dollar monthly limit. -/
def c2Settings : ShopifySettings :=
  { baseSettings with
      loyaltyEnabled := true
      loyaltyApiKey := some "k"
      pointsPerTree := some 200
      monthlyLimit := some 10 }

/-- A redemption of 20000 points (100 trees, 50 dollars of cost). -/
def c2Body : RedeemBody :=
  ⟨some "c1", none, .numVal 20000, some "smile", none⟩

/-- An enabled per_tag rule with value 0.5 and tag eco. -/
def c3Rule : TriggerRule :=
  ⟨"per_tag", true, 1 / 2, some "eco", none⟩

/-- Settings paused but enabled, legacy fixed trigger of 2. -/
def c5Settings : ShopifySettings :=
  { baseSettings with isPaused := true, triggerValue := 2 }

/-- Loyalty-enabled settings with 0.1 points per tree. -/
def c6Settings : ShopifySettings :=
  { baseSettings with
      loyaltyEnabled := true
      loyaltyApiKey := some "k"
      pointsPerTree := some (1 / 10) }

/-- A redemption of 0.5 points. -/
def c6Body : RedeemBody :=
  ⟨some "c1", none, .numVal (1 / 2), some "smile", none⟩

/-- Rules array with an enabled fixed rule of 2 and an enabled threshold
rule of 10. -/
def c7Rules : List TriggerRule :=
  [⟨"fixed", true, 2, none, none⟩, ⟨"threshold", true, 10, none, none⟩]

/-- Settings carrying the mixed rules array of `c7Rules`. -/
def c7Settings : ShopifySettings :=
  { baseSettings with triggerRules := some c7Rules }

/-- Rules-array settings with a single enabled fixed rule of value 2.6. -/
def c1RulesSettings : ShopifySettings :=
  { baseSettings with
      triggerRules := some [⟨"fixed", true, 13 / 5, none, none⟩] }

/-- Whether a line item has a product whose tag list contains the given
lowered tag (the per-item condition of the per_tag branch). -/
def itemHasTag (m : TagMap) (tagLower : String) (item : LineItem) : Bool :=
  match item.product_id with
  | none => false
  | some pid => (tagsFor m (gidOf pid)).any (fun tg => strLower tg = tagLower)

/-- Total quantity over the line items whose product carries the tag: the
filter-and-sum form of the per_tag accumulation loop. -/
def matchedUnits (m : TagMap) (tagLower : String) (items : List LineItem) : ℚ :=
  ((items.filter (itemHasTag m tagLower)).map (fun it => it.quantity.getD 1)).sum

/-- Settings row with isEnabled false. -/
def c5DisabledSettings : ShopifySettings :=
  { baseSettings with isEnabled := false }

/-- Rules array for C4: an enabled fixed rule of 2, an enabled per_product
rule of 3, and a disabled threshold rule. -/
def c4Rules : List TriggerRule :=
  [⟨"fixed", true, 2, none, none⟩, ⟨"per_product", true, 3, none, none⟩,
   ⟨"threshold", false, 10, none, none⟩]

/-- Settings carrying the c4Rules array. -/
def c4Settings : ShopifySettings :=
  { baseSettings with triggerRules := some c4Rules }

/-- Line items for C4: one anonymous product with quantity 2. -/
def c4Items : List LineItem :=
  [⟨none, some 2⟩]

/-- Loyalty-enabled settings with an explicit monthly limit of 0. -/
def c9Settings : ShopifySettings :=
  { baseSettings with
      monthlyLimit := some 0
      loyaltyEnabled := true
      loyaltyApiKey := some "k"
      pointsPerTree := some 1 }

/-! Helper lemmas about the JS-number fold used by the rules branch. -/

theorem jsAdd_nan_left (x : JSNum) : jsAdd .nan x = .nan := by
  cases x <;> rfl

theorem jsAdd_num_zero_right (x : JSNum) : jsAdd x (.num 0) = x := by
  cases x <;> simp [jsAdd]

/-- A fold of jsAdd over all-finite contributions is the finite sum. -/
theorem foldl_jsAdd_num {α : Type} (f : α → JSNum) (g : α → ℚ) :
    ∀ (l : List α), (∀ r ∈ l, f r = .num (g r)) → ∀ (a : ℚ),
      l.foldl (fun acc r => jsAdd acc (f r)) (.num a) = .num (a + (l.map g).sum)
  | [], _, a => by simp
  | r :: l, h, a => by
      have hr : f r = .num (g r) := h r (by simp)
      have hl : ∀ x ∈ l, f x = .num (g x) := fun x hx => h x (by simp [hx])
      rw [List.foldl_cons]
      show l.foldl (fun acc r => jsAdd acc (f r)) (jsAdd (.num a) (f r)) = _
      rw [hr]
      have hstep : jsAdd (.num a) (.num (g r)) = .num (a + g r) := rfl
      rw [hstep, foldl_jsAdd_num f g l hl (a + g r)]
      simp [add_assoc]

/-- Once the accumulator is NaN the fold stays NaN. -/
theorem foldl_jsAdd_nan_acc {α : Type} (f : α → JSNum) :
    ∀ (l : List α), l.foldl (fun acc r => jsAdd acc (f r)) .nan = .nan
  | [] => rfl
  | r :: l => by
      simp only [List.foldl_cons, jsAdd_nan_left]
      exact foldl_jsAdd_nan_acc f l

/-- One NaN contribution poisons the whole fold. -/
theorem foldl_jsAdd_nan_mem {α : Type} (f : α → JSNum) :
    ∀ (l : List α), (∃ r ∈ l, f r = .nan) → ∀ (a : JSNum),
      l.foldl (fun acc r => jsAdd acc (f r)) a = .nan
  | [], h, a => by simp at h
  | r :: l, h, a => by
      rcases h with ⟨x, hx, hfx⟩
      rcases List.mem_cons.mp hx with hx | hx
      · subst hx
        simp only [List.foldl_cons, hfx]
        have : jsAdd a .nan = .nan := by cases a <;> rfl
        rw [this]
        exact foldl_jsAdd_nan_acc f l
      · simp only [List.foldl_cons]
        exact foldl_jsAdd_nan_mem f l ⟨x, hx, hfx⟩ _

/-- Contributions equal to the literal 0 drop out of the fold. -/
theorem foldl_jsAdd_filter_zero {α : Type} (f : α → JSNum) (p : α → Bool) :
    ∀ (l : List α), (∀ r ∈ l, p r = false → f r = .num 0) → ∀ (a : JSNum),
      l.foldl (fun acc r => jsAdd acc (f r)) a
        = (l.filter p).foldl (fun acc r => jsAdd acc (f r)) a
  | [], _, a => rfl
  | r :: l, h, a => by
      have hl : ∀ x ∈ l, p x = false → f x = .num 0 :=
        fun x hx => h x (by simp [hx])
      by_cases hp : p r = true
      · simp only [List.foldl_cons, List.filter_cons, hp, if_true]
        exact foldl_jsAdd_filter_zero f p l hl _
      · have hp0 : p r = false := by
          cases hpr : p r
          · rfl
          · exact absurd hpr hp
        simp only [List.foldl_cons, List.filter_cons, hp0, h r (by simp) hp0,
          jsAdd_num_zero_right, Bool.false_eq_true, if_false]
        exact foldl_jsAdd_filter_zero f p l hl _

/-! Claim C1: fixed trigger. -/

/-- C1 counterexample: with the legacy single-trigger fallback and
triggerValue 2.6 the webhook records round(2.6) = 3 trees, not
floor(2.6) = 2 as the claim states. -/
theorem C1_fixed_legacy_rounds_counterexample :
    processOrder (some c1Settings) ⟨.missing, []⟩ none
      = .recorded 3 60 (3 / 2) ∧ (⌊(13 : ℚ) / 5⌋ = 2) := by
  constructor
  · norm_num [processOrder, processOrder.processLegacy, legacyTrees, c1Settings,
      baseSettings, recordStage, parseTotalPrice, round_eq]
  · norm_num

/-- C1 (amended): with a trigger-rules array holding a single enabled fixed
rule of value v, the webhook records floor(v) trees for every order (the
order total and line items are arbitrary); on the legacy fallback with
triggerType fixed it records round(v) trees instead.  Budget and global
minimum are absent so that the record stage goes through. -/
theorem C1_fixed_trigger_amended (v : ℚ) (s : ShopifySettings) (o : Order)
    (f : Option TagMap)
    (hen : s.isEnabled = true) (hp : s.isPaused = false)
    (hnl : s.monthlyLimit = none) :
    (s.triggerRules = some [⟨"fixed", true, v, none, none⟩] → 0 < ⌊v⌋ →
      processOrder (some s) o f
        = .recorded ⌊v⌋ (⌊v⌋ * 20) ((⌊v⌋ : ℚ) * s.costPerTree.getD (1 / 2))) ∧
    (s.triggerRules = none → s.triggerType = "fixed" → s.triggerValue = v →
      s.minOrderValue = none → 0 < v →
      processOrder (some s) o f
        = .recorded (round v) (round v * 20)
            ((round v : ℚ) * s.costPerTree.getD (1 / 2))) := by
  constructor
  · intro hr hpos
    have hq : (0 : ℚ) < (⌊v⌋ : ℤ) := by exact_mod_cast hpos
    simp [processOrder, hen, hp, hr, computeTreesRules, treesFromRule,
      effectiveTagMap, recordStage, hnl, jsAdd, not_le.mpr hq, round_intCast]
  · intro hr ht htv hm hpos
    simp [processOrder, processOrder.processLegacy, hen, hp, hr, ht, htv, hm,
      legacyTrees, recordStage, hnl, not_le.mpr hpos]

/-- Witness for C1 (amended): concrete evaluations through the theorem, one
per branch. -/
theorem C1_fixed_trigger_amended_witness :
    processOrder (some c1RulesSettings) ⟨.missing, []⟩ none
      = .recorded 2 40 1 ∧
    processOrder (some c1Settings) ⟨.missing, []⟩ none
      = .recorded 3 60 (3 / 2) := by
  constructor
  · have h := (C1_fixed_trigger_amended (13 / 5) c1RulesSettings ⟨.missing, []⟩
      none rfl rfl rfl).1 rfl (by norm_num)
    norm_num [c1RulesSettings, baseSettings] at h
    exact h
  · have h := (C1_fixed_trigger_amended (13 / 5) c1Settings ⟨.missing, []⟩
      none rfl rfl rfl).2 rfl rfl rfl rfl (by norm_num)
    norm_num [c1Settings, baseSettings, round_eq] at h
    exact h

/-! Claim C3: per_tag rule semantics. -/

/-- The per_tag accumulation loop computes the matched-units sum. -/
theorem perTag_fold_eq_matchedUnits (m : TagMap) (tagLower : String) :
    ∀ (items : List LineItem) (a : ℚ),
      items.foldl (fun acc item =>
        match item.product_id with
        | none => acc
        | some pid =>
            if (tagsFor m (gidOf pid)).any (fun tg => strLower tg = tagLower)
            then acc + item.quantity.getD 1 else acc) a
      = a + matchedUnits m tagLower items
  | [], a => by simp [matchedUnits]
  | item :: items, a => by
      cases hpid : item.product_id with
      | none =>
          simp only [List.foldl_cons, hpid]
          rw [perTag_fold_eq_matchedUnits m tagLower items a]
          simp [matchedUnits, List.filter_cons, itemHasTag, hpid]
      | some pid =>
          simp only [List.foldl_cons, hpid]
          by_cases hmatch :
              ((tagsFor m (gidOf pid)).any (fun tg => strLower tg = tagLower)) = true
          · rw [if_pos hmatch,
              perTag_fold_eq_matchedUnits m tagLower items (a + item.quantity.getD 1)]
            simp [matchedUnits, List.filter_cons, itemHasTag, hpid, hmatch]
            ring
          · rw [if_neg hmatch, perTag_fold_eq_matchedUnits m tagLower items a]
            simp [matchedUnits, List.filter_cons, itemHasTag, hpid, hmatch]

/-- C3 counterexample: an enabled per_tag rule with value 0.5 and one
matching unit contributes 1 tree (the source uses max(1, floor(value))),
while the claim predicts floor(0.5) = 0 trees. -/
theorem C3_per_tag_min_one_counterexample :
    treesFromRule c3Rule (.num 0) [⟨some (.numId 7), some 1⟩]
      [("gid://shopify/Product/7", ["Eco"])] (1 / 2) = .num 1 ∧
    (⌊(1 : ℚ) / 2⌋ = 0) := by
  constructor
  · norm_num [treesFromRule, c3Rule, tagsFor, gidOf, strTrim, strLower,
      List.lookup, List.foldl]
    decide
  · norm_num

/-- C3 (amended): an enabled per_tag rule contributes 0 when its tag is
unset or trims to the empty string; otherwise it contributes
max(1, floor(value)) trees (not floor(value)) for every unit of every line
item whose product carries the tag, matched case-insensitively after
trimming. -/
theorem C3_per_tag_amended (rule : TriggerRule) (total : JSNum)
    (items : List LineItem) (m : TagMap) (c : ℚ)
    (htype : rule.type = "per_tag") (hen : rule.enabled = true) :
    (rule.tag = none → treesFromRule rule total items m c = .num 0) ∧
    (∀ t, rule.tag = some t → strTrim t = "" →
      treesFromRule rule total items m c = .num 0) ∧
    (∀ t, rule.tag = some t → strTrim t ≠ "" →
      treesFromRule rule total items m c
        = .num (matchedUnits m (strLower (strTrim t)) items
            * ((max 1 ⌊rule.value⌋ : ℤ) : ℚ))) := by
  refine ⟨?_, ?_, ?_⟩
  · intro h
    simp [treesFromRule, htype, hen, h]
  · intro t h hempty
    simp [treesFromRule, htype, hen, h, hempty]
  · intro t h hne
    simp only [treesFromRule, htype, hen, h, Bool.true_eq_false, if_false]
    rw [if_neg hne]
    rw [perTag_fold_eq_matchedUnits m (strLower (strTrim t)) items 0]
    rw [zero_add]

/-- Witness for C3 (amended): the theorem evaluated on a two-unit matching
line item with value 0.5 yields 2 trees. -/
theorem C3_per_tag_amended_witness :
    treesFromRule c3Rule (.num 0) [⟨some (.numId 7), some 2⟩]
      [("gid://shopify/Product/7", ["Eco"])] (1 / 2) = .num 2 := by
  have h := (C3_per_tag_amended c3Rule (.num 0)
      [⟨some (.numId 7), some 2⟩] [("gid://shopify/Product/7", ["Eco"])]
      (1 / 2) rfl rfl).2.2 "eco" rfl (by decide)
  rw [h]
  have hc : itemHasTag [("gid://shopify/Product/7", ["Eco"])]
      (strLower (strTrim "eco")) ⟨some (.numId 7), some 2⟩ = true := by decide
  norm_num [matchedUnits, List.filter, hc, c3Rule]

/-! Claim C5: paused and disabled shops. -/

/-- C5 counterexample: the legacy orders-paid handler records 2 trees (one
ledger row) for a shop whose settings have isPaused true, contradicting the
claim that no ledger row is written when isPaused is set. -/
theorem C5_orders_paid_ignores_paused_counterexample :
    processOrderPaid (some c5Settings) ⟨.missing, []⟩ = .recorded 2 40 ∧
    c5Settings.isPaused = true ∧ c5Settings.isEnabled = true := by
  refine ⟨?_, rfl, rfl⟩
  norm_num [processOrderPaid, c5Settings, baseSettings, parseTotalPrice,
    round_eq]

/-- C5 (amended): a disabled shop is skipped by both order webhook handlers
(no ledger row, settings untouched, 0 trees); a paused shop is skipped by
the main handler, but the legacy orders-paid handler never consults
isPaused. -/
theorem C5_pause_disable_amended (s : ShopifySettings) (o : Order)
    (f : Option TagMap) :
    (s.isEnabled = false →
      processOrder (some s) o f = .skipped ∧
      processOrderPaid (some s) o = .skipped) ∧
    (s.isPaused = true → processOrder (some s) o f = .skipped) := by
  constructor
  · intro h
    constructor
    · simp [processOrder, h]
    · simp [processOrderPaid, h]
  · intro h
    by_cases he : s.isEnabled = true
    · simp [processOrder, he, h]
    · have hf : s.isEnabled = false := by
        cases hb : s.isEnabled
        · rfl
        · exact absurd hb he
      simp [processOrder, hf]

/-- Witness for C5 (amended): the theorem evaluated on a paused shop and on
a disabled shop. -/
theorem C5_pause_disable_amended_witness :
    processOrder (some c5Settings) ⟨.missing, []⟩ none = .skipped ∧
    processOrder (some c5DisabledSettings) ⟨.missing, []⟩ none = .skipped ∧
    processOrderPaid (some c5DisabledSettings) ⟨.missing, []⟩ = .skipped := by
  refine ⟨?_, ?_, ?_⟩
  · exact (C5_pause_disable_amended c5Settings ⟨.missing, []⟩ none).2 rfl
  · exact ((C5_pause_disable_amended c5DisabledSettings ⟨.missing, []⟩ none).1
      rfl).1
  · exact ((C5_pause_disable_amended c5DisabledSettings ⟨.missing, []⟩ none).1
      rfl).2

/-- A nullable string is truthy exactly when it holds a nonempty string. -/
theorem jsStrTruthy_eq_true (o : Option String) :
    jsStrTruthy o = true ↔ ∃ s, o = some s ∧ s ≠ "" := by
  cases o <;> simp [jsStrTruthy]

/-! Claim C2: spend-limit guard policies per call site. -/

/-- C2 counterexample: an over-budget loyalty redemption (limit 10, spend 0,
cost 50) is rejected outright with 429; the claim instead predicts
truncation to floor((10 - 0) / 0.5) = 20 granted trees. -/
theorem C2_loyalty_truncation_counterexample :
    loyaltyRedeem (some c2Settings) (some "x.myshopify.com") (some "k")
      (some c2Body) = .err .limitReached ∧
    redeemStatus .limitReached = 429 ∧
    (⌊((10 : ℚ) - 0) / (1 / 2)⌋ = 20) := by
  refine ⟨?_, rfl, by norm_num⟩
  norm_num [loyaltyRedeem, c2Settings, baseSettings, c2Body, jsStrTruthy,
    jfTruthy, jsOr]
  decide

/-- C2 (amended): when the increment would exceed the monthly limit, the
order-webhook record stage and the loyalty-redemption path both reject the
whole operation (overBudget respectively a 429 error, nothing recorded);
only the rates-preview computation truncates the remaining budget into
floor((monthlyLimit - monthlySpent) / costPerTree) trees. -/
theorem C2_spend_guard_amended (s : ShopifySettings) :
    (∀ (q lim : ℚ), 0 < q → s.monthlyLimit = some lim → lim ≠ 0 →
      s.monthlySpent + (round q : ℚ) * s.costPerTree.getD (1 / 2) > lim →
      recordStage s (.num q)
        = .overBudget (round q) ((round q : ℚ) * s.costPerTree.getD (1 / 2))) ∧
    (∀ (shopH keyH : String) (b : RedeemBody) (ps lim : ℚ),
      shopH ≠ "" → keyH ≠ "" → s.loyaltyEnabled = true →
      s.loyaltyApiKey = some keyH →
      jsStrTruthy b.customerId = true → jsStrTruthy b.loyaltyApp = true →
      b.pointsSpent = .numVal ps → 1 ≤ ps →
      1 ≤ ⌊ps / jsOr s.pointsPerTree 200⌋ →
      s.monthlyLimit = some lim → 0 < lim →
      s.monthlySpent + (⌊ps / jsOr s.pointsPerTree 200⌋ : ℚ)
          * jsOr s.costPerTree (1 / 2) > lim →
      loyaltyRedeem (some s) (some shopH) (some keyH) (some b)
        = .err .limitReached) ∧
    (∀ lim : ℚ, s.monthlyLimit = some lim → lim ≠ 0 → s.monthlySpent < lim →
      treesRemainingThisMonth s
        = some ⌊(lim - s.monthlySpent) / jsOr s.costPerTree (1 / 2)⌋) := by
  refine ⟨?_, ?_, ?_⟩
  · intro q lim hq hl hne hgt
    simp [recordStage, not_le.mpr hq, hl, hne]
    simpa using hgt
  · intro shopH keyH b ps lim hsh hk hen hkey hcid happ hps hps1 hfl hl hl0 hgt
    have hpsne : ps ≠ 0 := by
      intro h
      rw [h] at hps1
      norm_num at hps1
    have hjf2 : jfTruthy (.numVal ps) = true := by
      simp [jfTruthy, hpsne]
    rcases (jsStrTruthy_eq_true b.customerId).mp hcid with ⟨cid, hbc, hcne⟩
    rcases (jsStrTruthy_eq_true b.loyaltyApp).mp happ with ⟨app, hba, hane⟩
    simp [loyaltyRedeem, jsStrTruthy, hsh, hk, hen, hkey, hbc, hcne, hba,
      hane, hjf2, hps, not_lt.mpr hps1, not_lt.mpr hfl, hl, ne_of_gt hl0,
      hl0]
    simpa using hgt
  · intro lim hl hne hsp
    have hmax : max 0 (lim - s.monthlySpent) = lim - s.monthlySpent :=
      max_eq_right (le_of_lt (sub_pos.mpr hsp))
    have hrne : lim - s.monthlySpent ≠ 0 := sub_ne_zero.mpr (ne_of_gt hsp)
    simp [treesRemainingThisMonth, hl, hne, hmax, hrne]

/-- Witness for C2 (amended): the three guard sites evaluated concretely
through the theorem. -/
theorem C2_spend_guard_amended_witness :
    recordStage c2Settings (.num 100) = .overBudget 100 50 ∧
    loyaltyRedeem (some c2Settings) (some "x.myshopify.com") (some "k")
      (some c2Body) = .err .limitReached ∧
    treesRemainingThisMonth
      { baseSettings with monthlyLimit := some 10, monthlySpent := 5 }
      = some 10 := by
  refine ⟨?_, ?_, ?_⟩
  · have h := (C2_spend_guard_amended c2Settings).1 100 10 (by norm_num) rfl
      (by norm_num) (by norm_num [c2Settings, baseSettings, round_eq])
    norm_num [c2Settings, baseSettings, round_eq] at h
    exact h
  · exact (C2_spend_guard_amended c2Settings).2.1 "x.myshopify.com" "k"
      c2Body 20000 10 (by decide) (by decide) rfl rfl (by decide) (by decide)
      rfl (by norm_num) (by norm_num [c2Settings, baseSettings, jsOr]) rfl
      (by norm_num) (by norm_num [c2Settings, baseSettings, jsOr])
  · have h := (C2_spend_guard_amended
      { baseSettings with monthlyLimit := some 10, monthlySpent := 5 }).2.2
      10 rfl (by norm_num) (by norm_num [baseSettings])
    norm_num [baseSettings, jsOr] at h
    exact h

/-! Claim C6: loyalty redemption floor and 400 rejection. -/

/-- C6 counterexample: with pointsPerTree 0.1 a redemption of 0.5 points has
floor(0.5 / 0.1) = 5 >= 1, yet the request is rejected with 400 by the
pointsSpent >= 1 validation, contradicting the claim that 400 happens
exactly when the floor is below 1. -/
theorem C6_redeem_400_counterexample :
    loyaltyRedeem (some c6Settings) (some "x.myshopify.com") (some "k")
      (some c6Body) = .err .nonPositivePoints ∧
    redeemStatus .nonPositivePoints = 400 ∧
    ⌊((1 : ℚ) / 2) / (1 / 10)⌋ = 5 ∧ ¬(⌊((1 : ℚ) / 2) / (1 / 10)⌋ < 1) := by
  refine ⟨?_, rfl, by norm_num, by norm_num⟩
  norm_num [loyaltyRedeem, c6Settings, baseSettings, c6Body, jsStrTruthy,
    jfTruthy]
  decide

/-- C6 (amended): for a request that passes authentication and enablement
and carries a complete body with a numeric pointsSpent ps, the action
answers 400 exactly when ps < 1 or floor(ps / pointsPerTree) < 1, and a
successful redemption grants exactly floor(ps / pointsPerTree) trees. -/
theorem C6_redeem_amended (s : ShopifySettings) (shopH keyH : String)
    (b : RedeemBody) (ps : ℚ)
    (hsh : shopH ≠ "") (hk : keyH ≠ "") (hen : s.loyaltyEnabled = true)
    (hkey : s.loyaltyApiKey = some keyH)
    (hcid : jsStrTruthy b.customerId = true)
    (happ : jsStrTruthy b.loyaltyApp = true)
    (hps : b.pointsSpent = .numVal ps) :
    ((∃ e, loyaltyRedeem (some s) (some shopH) (some keyH) (some b) = .err e ∧
        redeemStatus e = 400)
      ↔ (ps < 1 ∨ ⌊ps / jsOr s.pointsPerTree 200⌋ < 1)) ∧
    (∀ tr pts cost,
      loyaltyRedeem (some s) (some shopH) (some keyH) (some b)
        = .ok tr pts cost →
      tr = ⌊ps / jsOr s.pointsPerTree 200⌋ ∧ pts = ps) := by
  rcases (jsStrTruthy_eq_true b.customerId).mp hcid with ⟨cid, hbc, hcne⟩
  rcases (jsStrTruthy_eq_true b.loyaltyApp).mp happ with ⟨app, hba, hane⟩
  by_cases hz : ps = 0
  · have hjf : jfTruthy b.pointsSpent = false := by
      rw [hps, hz]
      simp [jfTruthy]
    have hred : loyaltyRedeem (some s) (some shopH) (some keyH) (some b)
        = .err .missingFields := by
      simp [loyaltyRedeem, jsStrTruthy, hsh, hk, hen, hkey, hjf]
    constructor
    · rw [hred]
      constructor
      · intro _
        left
        rw [hz]
        norm_num
      · intro _
        exact ⟨.missingFields, rfl, rfl⟩
    · intro tr pts cost hok
      rw [hred] at hok
      exact absurd hok (by simp)
  · have hjf : jfTruthy (.numVal ps) = true := by
      simp [jfTruthy, hz]
    by_cases h1 : ps < 1
    · have hres : loyaltyRedeem (some s) (some shopH) (some keyH) (some b)
          = .err .nonPositivePoints := by
        simp [loyaltyRedeem, jsStrTruthy, hsh, hk, hen, hkey, hbc, hcne,
          hba, hane, hjf, hps, h1]
      rw [hres]
      constructor
      · constructor
        · intro _
          exact Or.inl h1
        · intro _
          exact ⟨.nonPositivePoints, rfl, rfl⟩
      · intro tr pts cost hok
        exact absurd hok (by simp)
    · by_cases h2 : ⌊ps / jsOr s.pointsPerTree 200⌋ < 1
      · have hres : loyaltyRedeem (some s) (some shopH) (some keyH) (some b)
            = .err .belowMinimumPoints := by
          simp [loyaltyRedeem, jsStrTruthy, hsh, hk, hen, hkey, hbc, hcne,
            hba, hane, hjf, hps, h1, h2]
        rw [hres]
        constructor
        · constructor
          · intro _
            exact Or.inr h2
          · intro _
            exact ⟨.belowMinimumPoints, rfl, rfl⟩
        · intro tr pts cost hok
          exact absurd hok (by simp)
      · have hok_case : ∀ cost0 : ℚ,
            loyaltyRedeem (some s) (some shopH) (some keyH) (some b)
              = .ok ⌊ps / jsOr s.pointsPerTree 200⌋ ps cost0 →
            ((∃ e, loyaltyRedeem (some s) (some shopH) (some keyH) (some b)
                = .err e ∧ redeemStatus e = 400)
              ↔ (ps < 1 ∨ ⌊ps / jsOr s.pointsPerTree 200⌋ < 1)) ∧
            (∀ tr pts cost,
              loyaltyRedeem (some s) (some shopH) (some keyH) (some b)
                = .ok tr pts cost →
              tr = ⌊ps / jsOr s.pointsPerTree 200⌋ ∧ pts = ps) := by
          intro cost0 hres
          rw [hres]
          constructor
          · constructor
            · intro hex
              rcases hex with ⟨e, he, hst⟩
              exact absurd he (by simp)
            · intro hc
              rcases hc with hc | hc
              · exact absurd hc h1
              · exact absurd hc h2
          · intro tr pts cost hok
            simp only [RedeemResult.ok.injEq] at hok
            exact ⟨hok.1.symm, hok.2.1.symm⟩
        rcases hml : s.monthlyLimit with _ | lim
        · exact hok_case ((⌊ps / jsOr s.pointsPerTree 200⌋ : ℚ)
                * jsOr s.costPerTree (1 / 2)) (by
            simp only [loyaltyRedeem, jsStrTruthy, hbc, hba, hps]
            simp [hsh, hk, hen, hkey, hcne, hane, hjf, h1, h2, hml])
        · by_cases hA : lim = 0
          · exact hok_case ((⌊ps / jsOr s.pointsPerTree 200⌋ : ℚ)
                * jsOr s.costPerTree (1 / 2)) (by
              simp only [loyaltyRedeem, jsStrTruthy, hbc, hba, hps]
              simp [hsh, hk, hen, hkey, hcne, hane, hjf, h1, h2, hml, hA])
          · by_cases hB : 0 < lim
            · by_cases hC : s.monthlySpent +
                  (⌊ps / jsOr s.pointsPerTree 200⌋ : ℚ)
                    * jsOr s.costPerTree (1 / 2) > lim
              · have hres : loyaltyRedeem (some s) (some shopH) (some keyH)
                    (some b) = .err .limitReached := by
                  simp only [loyaltyRedeem, jsStrTruthy, hbc, hba, hps]
                  simp [hsh, hk, hen, hkey, hcne, hane, hjf, h1, h2, hml, hA,
                    hB]
                  simpa using hC
                rw [hres]
                constructor
                · constructor
                  · intro hex
                    rcases hex with ⟨e, he, hst⟩
                    have he2 : RedeemErr.limitReached = e := by
                      simpa [RedeemResult.err.injEq] using he
                    rw [← he2] at hst
                    norm_num [redeemStatus] at hst
                  · intro hc
                    rcases hc with hc | hc
                    · exact absurd hc h1
                    · exact absurd hc h2
                · intro tr pts cost hok
                  exact absurd hok (by simp)
              · exact hok_case ((⌊ps / jsOr s.pointsPerTree 200⌋ : ℚ)
                * jsOr s.costPerTree (1 / 2)) (by
                  simp only [loyaltyRedeem, jsStrTruthy, hbc, hba, hps]
                  simp [hsh, hk, hen, hkey, hcne, hane, hjf, h1, h2, hml, hA,
                    hB]
                  simpa using not_lt.mp hC)
            · exact hok_case ((⌊ps / jsOr s.pointsPerTree 200⌋ : ℚ)
                * jsOr s.costPerTree (1 / 2)) (by
                simp only [loyaltyRedeem, jsStrTruthy, hbc, hba, hps]
                simp [hsh, hk, hen, hkey, hcne, hane, hjf, h1, h2, hml, hA,
                  hB])

/-- Witness for C6 (amended): for a valid 400-point redemption at 200 points
per tree the theorem rules out any 400 answer. -/
theorem C6_redeem_amended_witness :
    ¬ ∃ e, loyaltyRedeem (some c2Settings) (some "x.myshopify.com") (some "k")
        (some ⟨some "c1", none, .numVal 400, some "smile", none⟩) = .err e ∧
      redeemStatus e = 400 := by
  have h := (C6_redeem_amended c2Settings "x.myshopify.com" "k"
      ⟨some "c1", none, .numVal 400, some "smile", none⟩ 400 (by decide)
      (by decide) rfl rfl (by decide) (by decide) rfl).1
  rw [h]
  norm_num [c2Settings, baseSettings, jsOr]

/-! Claim C4: multiple enabled rules sum independently. -/

/-- C4 (confirmed): with a rules array the webhook total is the sum over the
enabled rules of each independent contribution (no deduplication), and the
handler feeds exactly that sum into the record stage. -/
theorem C4_rules_sum_confirmed (rules : List TriggerRule) (t : JSNum)
    (items : List LineItem) (m : TagMap) (c : ℚ) (g : TriggerRule → ℚ)
    (hg : ∀ r ∈ rules.filter (fun r => r.enabled),
      treesFromRule r t items m c = .num (g r)) :
    computeTreesRules (rules.filter (fun r => r.enabled)) t items m c
      = .num (((rules.filter (fun r => r.enabled)).map g).sum) ∧
    (∀ (s : ShopifySettings) (o : Order) (f : Option TagMap),
      s.isEnabled = true → s.isPaused = false → s.triggerRules = some rules →
      rules ≠ [] → rules.filter (fun r => r.enabled) ≠ [] →
      parseTotalPrice o.total_price = t → o.line_items = items →
      effectiveTagMap (rules.filter (fun r => r.enabled)) items f = m →
      s.costPerTree.getD (1 / 2) = c →
      processOrder (some s) o f
        = recordStage s
            (.num (((rules.filter (fun r => r.enabled)).map g).sum))) := by
  have h1 : computeTreesRules (rules.filter (fun r => r.enabled)) t items m c
      = .num (((rules.filter (fun r => r.enabled)).map g).sum) := by
    have h2 := foldl_jsAdd_num (fun r => treesFromRule r t items m c) g
      (rules.filter (fun r => r.enabled)) hg 0
    rw [zero_add] at h2
    exact h2
  refine ⟨h1, ?_⟩
  intro s o f hen hp hr hne hfe hto hli hmap hcpt
  simp only [processOrder, hen, hp, hr, Bool.true_eq_false, if_false,
    if_neg hne, if_neg hfe, hto, hli, hmap, hcpt]
  rw [h1]
  simp

/-- Witness for C4 (confirmed): two enabled rules (fixed 2 and per_product 3
over quantity 2) sum to 8 trees, which the handler records. -/
theorem C4_rules_sum_confirmed_witness :
    computeTreesRules (c4Rules.filter (fun r => r.enabled)) (.num 100)
      c4Items [] (1 / 2) = .num 8 ∧
    processOrder (some c4Settings) ⟨.numeric 100, c4Items⟩ none
      = recordStage c4Settings (.num 8) := by
  have hfil : c4Rules.filter (fun r => r.enabled)
      = [⟨"fixed", true, 2, none, none⟩,
         ⟨"per_product", true, 3, none, none⟩] := by decide
  have hg : ∀ r ∈ c4Rules.filter (fun r => r.enabled),
      treesFromRule r (.num 100) c4Items [] (1 / 2)
        = .num ((fun r => if r.type = "fixed" then 2 else 6) r) := by
    rw [hfil]
    intro r hr
    rcases List.mem_cons.mp hr with h | h
    · subst h
      norm_num [treesFromRule]
    · rcases List.mem_cons.mp h with h2 | h2
      · subst h2
        norm_num [treesFromRule, c4Items, List.foldl]
        decide
      · simp at h2
  have h := C4_rules_sum_confirmed c4Rules (.num 100) c4Items [] (1 / 2)
    (fun r => if r.type = "fixed" then 2 else 6) hg
  have hsum : ((c4Rules.filter (fun r => r.enabled)).map
      (fun r => if r.type = "fixed" then 2 else 6)).sum = (8 : ℚ) := by
    rw [hfil]
    have e1 : (if ("fixed" : String) = "fixed" then (2 : ℚ) else 6) = 2 := by
      decide
    have e2 : (if ("per_product" : String) = "fixed" then (2 : ℚ) else 6)
        = 6 := by decide
    simp only [List.map, List.sum_cons, List.sum_nil, e1, e2]
    norm_num
  constructor
  · rw [h.1, hsum]
  · have h2 := h.2 c4Settings ⟨.numeric 100, c4Items⟩ none rfl rfl rfl
      (by decide) (by rw [hfil]; decide) rfl rfl (by decide) rfl
    rw [h2, hsum]

/-! Claim C7: missing and non-numeric order totals. -/

/-- C7 counterexample: with an enabled fixed rule of 2 and an enabled
threshold rule, a non-numeric total makes the webhook record nothing
(the NaN poisons the sum) although the fixed rule alone contributes 2 and a
missing total (treated as 0) records exactly those 2 trees. -/
theorem C7_nonnumeric_total_counterexample :
    processOrder (some c7Settings) ⟨.nonNumeric, []⟩ none = .zeroTrees ∧
    treesFromRule ⟨"fixed", true, 2, none, none⟩ .nan [] [] (1 / 2)
      = .num 2 ∧
    processOrder (some c7Settings) ⟨.missing, []⟩ none = .recorded 2 40 1 := by
  refine ⟨?_, by norm_num [treesFromRule], ?_⟩
  · norm_num [processOrder, c7Settings, c7Rules, baseSettings,
      parseTotalPrice, computeTreesRules, treesFromRule, effectiveTagMap,
      recordStage, List.foldl, List.filter, jsAdd, jsDiv, jsFloor, jsMul,
      jsLt]
    decide
  · norm_num [processOrder, c7Settings, c7Rules, baseSettings,
      parseTotalPrice, computeTreesRules, treesFromRule, effectiveTagMap,
      recordStage, List.foldl, List.filter, jsAdd, jsDiv, jsFloor, jsMul,
      jsLt, round_eq]
    decide

/-- C7 (amended): a missing or empty total_price is parsed as 0 and rules
that ignore the total (fixed, per_product, per_tag) are unaffected by it;
but a non-numeric total parses to NaN, every enabled threshold rule then
contributes NaN, one NaN contribution poisons the whole rules-path sum, and
the record stage drops a NaN total entirely, so even total-independent
rules record nothing. -/
theorem C7_total_parsing_amended :
    (parseTotalPrice .missing = .num 0) ∧
    (∀ (rule : TriggerRule) (items : List LineItem) (m : TagMap) (c : ℚ)
        (t1 t2 : JSNum),
      rule.type = "fixed" ∨ rule.type = "per_product" ∨
        rule.type = "per_tag" →
      treesFromRule rule t1 items m c = treesFromRule rule t2 items m c) ∧
    (∀ (rules : List TriggerRule) (items : List LineItem) (m : TagMap)
        (c : ℚ),
      (∃ r ∈ rules.filter (fun r => r.enabled),
        treesFromRule r .nan items m c = .nan) →
      computeTreesRules (rules.filter (fun r => r.enabled)) .nan items m c
        = .nan) ∧
    (∀ s : ShopifySettings, recordStage s .nan = .zeroTrees) ∧
    (∀ (v : ℚ) (items : List LineItem) (m : TagMap) (c : ℚ),
      treesFromRule ⟨"threshold", true, v, none, none⟩ .nan items m c
        = .nan) := by
  refine ⟨rfl, ?_, ?_, fun s => rfl, ?_⟩
  · intro rule items m c t1 t2 htype
    rcases htype with h | h | h <;> simp [treesFromRule, h]
  · intro rules items m c hex
    exact foldl_jsAdd_nan_mem _ _ hex _
  · intro v items m c
    simp [treesFromRule, jsLt, jsDiv, jsFloor]

/-- Witness for C7 (amended): the theorem evaluated on the c7 mixed rules
array and on a concrete fixed rule. -/
theorem C7_total_parsing_amended_witness :
    treesFromRule ⟨"fixed", true, 2, none, none⟩ .nan [] [] (1 / 2)
      = treesFromRule ⟨"fixed", true, 2, none, none⟩ (.num 0) [] [] (1 / 2) ∧
    computeTreesRules (c7Rules.filter (fun r => r.enabled)) .nan [] []
      (1 / 2) = .nan ∧
    recordStage baseSettings .nan = .zeroTrees := by
  refine ⟨?_, ?_, ?_⟩
  · exact C7_total_parsing_amended.2.1 ⟨"fixed", true, 2, none, none⟩ [] []
      (1 / 2) .nan (.num 0) (Or.inl rfl)
  · exact C7_total_parsing_amended.2.2.1 c7Rules [] [] (1 / 2)
      ⟨⟨"threshold", true, 10, none, none⟩, by decide,
        C7_total_parsing_amended.2.2.2.2 10 [] [] (1 / 2)⟩
  · exact C7_total_parsing_amended.2.2.2.1 baseSettings

/-! Claim C8: best-effort tag fetch. -/

/-- A line item never matches against the empty tag mapping. -/
theorem itemHasTag_nil (tagLower : String) (item : LineItem) :
    itemHasTag [] tagLower item = false := by
  cases h : item.product_id <;> simp [itemHasTag, tagsFor, h]

/-- With the empty tag mapping every per_tag rule contributes 0 trees. -/
theorem treesFromRule_per_tag_empty (rule : TriggerRule) (t : JSNum)
    (items : List LineItem) (c : ℚ) (htype : rule.type = "per_tag") :
    treesFromRule rule t items [] c = .num 0 := by
  by_cases hen : rule.enabled = true
  · cases htag : rule.tag with
    | none => simp [treesFromRule, htype, hen, htag]
    | some tg =>
        by_cases hem : strTrim tg = ""
        · simp [treesFromRule, htype, hen, htag, hem]
        · simp only [treesFromRule, htype, hen, htag, Bool.true_eq_false,
            if_false]
          rw [if_neg hem,
            perTag_fold_eq_matchedUnits [] (strLower (strTrim tg)) items 0]
          have hm : matchedUnits [] (strLower (strTrim tg)) items = 0 := by
            unfold matchedUnits
            have hf : items.filter (itemHasTag [] (strLower (strTrim tg)))
                = [] :=
              List.filter_eq_nil_iff.mpr
                (fun a _ => by simp [itemHasTag_nil])
            rw [hf]
            simp
          rw [hm]
          simp
  · have hf : rule.enabled = false := by
      cases h : rule.enabled
      · rfl
      · exact absurd h hen
    simp [treesFromRule, hf]

/-- The effective tag map of a failed fetch is the one of an empty result. -/
theorem effectiveTagMap_none (er : List TriggerRule)
    (li : List LineItem) :
    effectiveTagMap er li none = effectiveTagMap er li (some []) := by
  unfold effectiveTagMap
  by_cases h : er.any (fun r => r.type = "per_tag") = true ∧ li ≠ []
  · rw [if_pos h, if_pos h]
    rfl
  · rw [if_neg h, if_neg h]

/-- C8 (confirmed): when the product-tag fetch throws, the handler proceeds
with an empty mapping, per_tag rules contribute 0 trees, and the total is
the sum over the remaining (non per_tag) enabled rules, so the webhook
still completes and records the other contributions. -/
theorem C8_tag_fetch_failure_confirmed :
    (∀ (rule : TriggerRule) (t : JSNum) (items : List LineItem) (c : ℚ),
      rule.type = "per_tag" → treesFromRule rule t items [] c = .num 0) ∧
    (∀ (sOpt : Option ShopifySettings) (o : Order),
      processOrder sOpt o none = processOrder sOpt o (some [])) ∧
    (∀ (l : List TriggerRule) (t : JSNum) (items : List LineItem) (c : ℚ),
      computeTreesRules l t items [] c
        = computeTreesRules (l.filter (fun r => !decide (r.type = "per_tag")))
            t items [] c) := by
  refine ⟨?_, ?_, ?_⟩
  · intro rule t items c htype
    exact treesFromRule_per_tag_empty rule t items c htype
  · intro sOpt o
    cases sOpt with
    | none => rfl
    | some s => simp [processOrder, effectiveTagMap_none]
  · intro l t items c
    exact foldl_jsAdd_filter_zero _ (fun r => !decide (r.type = "per_tag")) l
      (fun r _ hp => treesFromRule_per_tag_empty r t items c (by
        simpa using hp)) _

/-- Witness for C8 (confirmed): the theorem evaluated on the concrete
per_tag rule, on concrete settings, and on a mixed rules list. -/
theorem C8_tag_fetch_failure_confirmed_witness :
    treesFromRule c3Rule (.num 0) [⟨some (.numId 7), some 1⟩] [] (1 / 2)
      = .num 0 ∧
    processOrder (some c7Settings) ⟨.missing, []⟩ none
      = processOrder (some c7Settings) ⟨.missing, []⟩ (some []) ∧
    computeTreesRules [c3Rule] (.num 0) [] [] (1 / 2)
      = computeTreesRules
          ([c3Rule].filter (fun r => !decide (r.type = "per_tag")))
          (.num 0) [] [] (1 / 2) := by
  refine ⟨?_, ?_, ?_⟩
  · exact C8_tag_fetch_failure_confirmed.1 c3Rule (.num 0)
      [⟨some (.numId 7), some 1⟩] (1 / 2) rfl
  · exact C8_tag_fetch_failure_confirmed.2.1 (some c7Settings) ⟨.missing, []⟩
  · exact C8_tag_fetch_failure_confirmed.2.2 [c3Rule] (.num 0) [] (1 / 2)

/-! Claim C9: a monthly limit of 0 (or null) is unlimited. -/

/-- C9 (confirmed): in all three guarded write paths the spend-limit check
is skipped when monthlyLimit is null or 0, so the operation is recorded and
monthlySpent incremented for every proposed cost. -/
theorem C9_zero_limit_unlimited_confirmed (s : ShopifySettings)
    (hL : s.monthlyLimit = none ∨ s.monthlyLimit = some 0) :
    (∀ q : ℚ, 0 < q →
      recordStage s (.num q)
        = .recorded (round q) (round q * 20)
            ((round q : ℚ) * s.costPerTree.getD (1 / 2))) ∧
    (∀ (shopH keyH : String) (b : RedeemBody) (ps : ℚ),
      shopH ≠ "" → keyH ≠ "" → s.loyaltyEnabled = true →
      s.loyaltyApiKey = some keyH →
      jsStrTruthy b.customerId = true → jsStrTruthy b.loyaltyApp = true →
      b.pointsSpent = .numVal ps → 1 ≤ ps →
      1 ≤ ⌊ps / jsOr s.pointsPerTree 200⌋ →
      loyaltyRedeem (some s) (some shopH) (some keyH) (some b)
        = .ok ⌊ps / jsOr s.pointsPerTree 200⌋ ps
            ((⌊ps / jsOr s.pointsPerTree 200⌋ : ℚ)
              * jsOr s.costPerTree (1 / 2))) ∧
    (∀ (dom : String) (props : FlowProps),
      dom ≠ "" → 1 ≤ flowTreeCount props.tree_count → s.isPaused = false →
      flowPlantTrees (some ⟨some dom, some props⟩) (some s)
        = .ok (flowTreeCount props.tree_count)
            ((flowTreeCount props.tree_count : ℚ)
              * jsOr s.costPerTree (1 / 2))) := by
  refine ⟨?_, ?_, ?_⟩
  · intro q hq
    rcases hL with hL | hL <;>
      simp [recordStage, not_le.mpr hq, hL]
  · intro shopH keyH b ps hsh hk hen hkey hcid happ hps hps1 hfl
    have hpsne : ps ≠ 0 := by
      intro h
      rw [h] at hps1
      norm_num at hps1
    have hjf : jfTruthy (.numVal ps) = true := by
      simp [jfTruthy, hpsne]
    rcases (jsStrTruthy_eq_true b.customerId).mp hcid with ⟨cid, hbc, hcne⟩
    rcases (jsStrTruthy_eq_true b.loyaltyApp).mp happ with ⟨app, hba, hane⟩
    rcases hL with hL | hL <;>
      simp [loyaltyRedeem, jsStrTruthy, hsh, hk, hen, hkey, hbc, hcne, hba,
        hane, hjf, hps, not_lt.mpr hps1, not_lt.mpr hfl, hL]
  · intro dom props hdom htc hp
    rcases hL with hL | hL <;>
      simp [flowPlantTrees, jsStrTruthy, hdom, not_lt.mpr htc, hp, hL]

/-- Witness for C9 (confirmed): with monthlyLimit 0 a cost of 500000 goes
through all three paths. -/
theorem C9_zero_limit_unlimited_confirmed_witness :
    recordStage c9Settings (.num 1000000)
      = .recorded 1000000 20000000 500000 ∧
    loyaltyRedeem (some c9Settings) (some "x.myshopify.com") (some "k")
      (some ⟨some "c1", none, .numVal 1000000, some "smile", none⟩)
      = .ok 1000000 1000000 500000 ∧
    flowPlantTrees
      (some ⟨some "x.myshopify.com", some ⟨.numVal 1000000, none⟩⟩)
      (some c9Settings) = .ok 1000000 500000 := by
  have h := C9_zero_limit_unlimited_confirmed c9Settings (Or.inr rfl)
  refine ⟨?_, ?_, ?_⟩
  · have h1 := h.1 1000000 (by norm_num)
    norm_num [c9Settings, baseSettings, round_eq] at h1
    exact h1
  · have h2 := h.2.1 "x.myshopify.com" "k"
      ⟨some "c1", none, .numVal 1000000, some "smile", none⟩ 1000000
      (by decide) (by decide) rfl rfl (by decide) (by decide) rfl
      (by norm_num) (by norm_num [c9Settings, baseSettings, jsOr])
    norm_num [c9Settings, baseSettings, jsOr] at h2
    exact h2
  · have h3 := h.2.2 "x.myshopify.com" ⟨.numVal 1000000, none⟩ (by decide)
      (by norm_num [flowTreeCount, jsParseIntField, jsTrunc]) rfl
    norm_num [c9Settings, baseSettings, jsOr, flowTreeCount,
      jsParseIntField, jsTrunc] at h3
    exact h3

/-! Claim C10: Flow tree_count coercion. -/

/-- C10 (confirmed): the Flow plant-trees endpoint coerces a tree_count that
parses to 0 or NaN to 1 before validating, so the 400 rejection is
reachable exactly for negative parsed integers, and a request with
tree_count 0 for a registered unpaused shop plants 1 tree. -/
theorem C10_flow_tree_count_confirmed (props : FlowProps) (dom : String)
    (sOpt : Option ShopifySettings) (s : ShopifySettings)
    (hdom : dom ≠ "") :
    ((jsParseIntField props.tree_count = none ∨
        jsParseIntField props.tree_count = some 0) →
      flowTreeCount props.tree_count = 1) ∧
    (flowPlantTrees (some ⟨some dom, some props⟩) sOpt
        = .err .treeCountTooSmall
      ↔ ∃ n, jsParseIntField props.tree_count = some n ∧ n < 0) ∧
    (props.tree_count = .numVal 0 → s.isPaused = false →
      s.monthlyLimit = none →
      flowPlantTrees (some ⟨some dom, some props⟩) (some s)
        = .ok 1 (jsOr s.costPerTree (1 / 2))) := by
  have hcoerce : (jsParseIntField props.tree_count = none ∨
      jsParseIntField props.tree_count = some 0) →
      flowTreeCount props.tree_count = 1 := by
    intro h
    rcases h with h | h <;> simp [flowTreeCount, h]
  have hneg : flowTreeCount props.tree_count < 1 ↔
      ∃ n, jsParseIntField props.tree_count = some n ∧ n < 0 := by
    cases hpi : jsParseIntField props.tree_count with
    | none => simp [flowTreeCount, hpi]
    | some n =>
        by_cases hz : n = 0
        · subst hz
          simp [flowTreeCount, hpi]
        · simp only [flowTreeCount, hpi, hz, if_false]
          constructor
          · intro h
            exact ⟨n, rfl, lt_of_le_of_ne (by omega) hz⟩
          · rintro ⟨n2, hn2, hneg2⟩
            have : n = n2 := by
              simpa using hn2
            omega
  refine ⟨hcoerce, ?_, ?_⟩
  · constructor
    · intro hres
      by_contra hnone
      have hge : ¬(flowTreeCount props.tree_count < 1) := fun hlt =>
        hnone (hneg.mp hlt)
      cases sOpt with
      | none =>
          simp [flowPlantTrees, jsStrTruthy, hdom, hge] at hres
      | some st =>
          by_cases hpz : st.isPaused = true
          · simp [flowPlantTrees, jsStrTruthy, hdom, hge, hpz] at hres
          · rcases hml : st.monthlyLimit with _ | lim
            · simp [flowPlantTrees, jsStrTruthy, hdom, hge, hpz, hml] at hres
            · by_cases hA : lim = 0
              · simp [flowPlantTrees, jsStrTruthy, hdom, hge, hpz, hml,
                  hA] at hres
              · by_cases hC : st.monthlySpent +
                    (flowTreeCount props.tree_count : ℚ)
                      * jsOr st.costPerTree (1 / 2) > lim
                · simp [flowPlantTrees, jsStrTruthy, hdom, hge, hpz, hml,
                    hA] at hres
                  rw [if_pos (by simpa using hC)] at hres
                  simp at hres
                · simp [flowPlantTrees, jsStrTruthy, hdom, hge, hpz, hml,
                    hA] at hres
                  rw [if_neg (by simpa using hC)] at hres
                  simp at hres
    · rintro ⟨n, hn, hneg2⟩
      have hlt : flowTreeCount props.tree_count < 1 :=
        hneg.mpr ⟨n, hn, hneg2⟩
      simp [flowPlantTrees, jsStrTruthy, hdom, hlt]
  · intro h0 hp hnl
    have h1 : flowTreeCount props.tree_count = 1 := by
      rw [h0]
      simp [flowTreeCount, jsParseIntField, jsTrunc]
    simp [flowPlantTrees, jsStrTruthy, hdom, h1, hp, hnl]

/-- Witness for C10 (confirmed): an absent tree_count coerces to 1, a
tree_count of minus 3 is rejected with 400, and a tree_count of 0 plants
one tree. -/
theorem C10_flow_tree_count_confirmed_witness :
    flowTreeCount JField.absent = 1 ∧
    flowPlantTrees
      (some ⟨some "x.myshopify.com", some ⟨.numVal (-3), none⟩⟩)
      (some baseSettings) = .err .treeCountTooSmall ∧
    flowPlantTrees
      (some ⟨some "x.myshopify.com", some ⟨.numVal 0, none⟩⟩)
      (some baseSettings) = .ok 1 (1 / 2) := by
  refine ⟨?_, ?_, ?_⟩
  · exact (C10_flow_tree_count_confirmed ⟨.absent, none⟩ "x.myshopify.com"
      none baseSettings (by decide)).1 (Or.inl rfl)
  · exact (C10_flow_tree_count_confirmed ⟨.numVal (-3), none⟩
      "x.myshopify.com" (some baseSettings) baseSettings (by decide)).2.1.mpr
      ⟨-3, by norm_num [jsParseIntField, jsTrunc], by norm_num⟩
  · have h := (C10_flow_tree_count_confirmed ⟨.numVal 0, none⟩
      "x.myshopify.com" (some baseSettings) baseSettings (by decide)).2.2
      rfl rfl rfl
    norm_num [jsOr, baseSettings] at h
    exact h

end Afforestation
